import Mathlib

/-!
Shallow embedding of `aws-cognito-passwordless-cdk-deployment`.

The repository's own code under `src/` is the CDK wiring in
`src/lib/backend-stack.ts` (the `BackendStack` constructor) and the app entry
point `src/bin/backend.ts`.  The five lambda handlers that the stack wires up
(`lambda/define-auth-challenge`, `lambda/create-auth-challenge`,
`lambda/verify-auth-challenge-response`, `lambda/post-authentication`,
`lambda/pre-sign-up`) are referenced only as code assets; their sources are
not part of `src/`, so their behaviour is modelled from the specification
(see the doc comments marked `Modelled from the spec:`).

TypeScript truthiness for the string-valued configuration fields is embedded
explicitly: a `string` is falsy exactly when it is empty, and an absent
(`undefined`) optional value is falsy.
-/

/-! ## Data model of the synthesized stack -/

/-- The `BackendStackProps` interface from `src/lib/backend-stack.ts`
(lines 8-13).
The `hasuraClaims` field has the TypeScript *literal type* `false`, embedded
here as the subtype of booleans equal to `false`. -/
structure BackendStackProps where
  hasuraClaims : { b : Bool // b = false }
  sourceEmail : String
  originationNumber : String
  pinpointApplicationId : String

/-- A Pinpoint `CfnSMSChannel` resource, as created on lines 29-31. -/
structure CfnSMSChannel where
  applicationId : String
deriving DecidableEq, Repr

/-- A `lambda.Function` resource: code asset path, handler entry point and
environment variables (empty for the functions created without any). -/
structure LambdaFunction where
  codeAsset : String
  handler : String
  environment : List (String × String)
deriving DecidableEq, Repr

/-- The `lambdaTriggers` object passed to the Cognito `UserPool`
(lines 112-130): the five triggers always present, plus the
`preTokenGeneration` slot that exists only in the `hasuraClaims` branch. -/
structure LambdaTriggers where
  createAuthChallenge : LambdaFunction
  defineAuthChallenge : LambdaFunction
  preSignUp : LambdaFunction
  verifyAuthChallengeResponse : LambdaFunction
  postAuthentication : LambdaFunction
  preTokenGeneration : Option LambdaFunction
deriving DecidableEq, Repr

/-- The Cognito `UserPool` (lines 133-156), restricted to the configuration
the source sets explicitly. -/
structure UserPool where
  signInAliasPhone : Bool
  signInAliasEmail : Bool
  mfaOff : Bool
  selfSignUpEnabled : Bool
  signInCaseSensitive : Bool
  passwordMinLength : Nat
  lambdaTriggers : LambdaTriggers
deriving DecidableEq, Repr

/-- The user-pool client added on lines 159-164. -/
structure UserPoolClient where
  generateSecret : Bool
  authFlowCustom : Bool
deriving DecidableEq, Repr

/-- An IAM policy created by the stack (lines 173-188). -/
structure IamPolicy where
  id : String
  actions : List String
  resources : List String
deriving DecidableEq, Repr

/-- A lambda invoke permission granted to `cognito-idp.amazonaws.com`
(lines 191-232). -/
structure InvokePermission where
  id : String
  principal : String
  action : String
deriving DecidableEq, Repr

/-- A `CfnOutput` of the stack (lines 235-246). -/
structure StackOutput where
  id : String
  exportName : String
deriving DecidableEq, Repr

/-- Everything the `BackendStack` constructor can provision.  Every field
defaults to "not created", so `{}` is the state after the early return on
line 20. -/
structure StackResources where
  pinpointSMSChannel : Option CfnSMSChannel := none
  defineAuthChallenge : Option LambdaFunction := none
  createAuthChallenge : Option LambdaFunction := none
  postAuthenticationRole : Bool := false
  postAuthentication : Option LambdaFunction := none
  preSignUp : Option LambdaFunction := none
  verifyAuthChallengeResponse : Option LambdaFunction := none
  hasuraClaimsCallback : Option LambdaFunction := none
  userPool : Option UserPool := none
  userPoolClient : Option UserPoolClient := none
  policies : List IamPolicy := []
  permissions : List InvokePermission := []
  outputs : List StackOutput := []
deriving DecidableEq, Repr

/-- The `BackendStack` constructor state after the early return on line 20:
nothing has been provisioned. -/
def emptyStackResources : StackResources := {}

namespace BackendStack

/-- The body of the `BackendStack` constructor
(`src/lib/backend-stack.ts`, lines 16-247), as a function from the optional
`props` argument to the set of provisioned resources.  The TypeScript code
contains no `throw`; a thrown error would be `Except.error`, so every path
here is `Except.ok`.  The guard `if (!props?.sourceEmail) return` (line 20)
is the early return producing the empty resource set. -/
def construct (props : Option BackendStackProps) : Except String StackResources :=
  match props with
  | none => .ok emptyStackResources
  | some p =>
    if p.sourceEmail = "" then .ok emptyStackResources
    else
      -- lines 27-32: channel created only when pinpointApplicationId is falsy
      let pinpointSMSChannel : Option CfnSMSChannel :=
        if p.pinpointApplicationId = "" then
          some { applicationId := "applicationId" }
        else none
      -- line 46-50
      let defineAuthChallenge : LambdaFunction :=
        { codeAsset := "lambda/define-auth-challenge"
          handler := "define-auth-challenge.handler"
          environment := [] }
      -- line 53: `props?.originationNumber ? props?.originationNumber : ""`
      let _originationNumber : String :=
        if p.originationNumber ≠ "" then p.originationNumber else ""
      -- line 54: `pinpointSMSChannel?.applicationId ? pinpointSMSChannel?.applicationId
      --           : props.pinpointApplicationId`
      let _pinpointApplicationId : String :=
        match pinpointSMSChannel with
        | some ch =>
          if ch.applicationId ≠ "" then ch.applicationId else p.pinpointApplicationId
        | none => p.pinpointApplicationId
      -- lines 56-65
      let createAuthChallenge : LambdaFunction :=
        { codeAsset := "lambda/create-auth-challenge/"
          handler := "create-auth-challenge.handler"
          environment :=
            [("ORIGINATIONNUMBER", _originationNumber),
             ("PINPOINTAPPLICATIONID", _pinpointApplicationId),
             ("SESFROMADDRESS", p.sourceEmail)] }
      -- lines 73-78
      let postAuthentication : LambdaFunction :=
        { codeAsset := "lambda/post-authentication"
          handler := "post-authentication.handler"
          environment := [] }
      -- lines 81-85
      let preSignUp : LambdaFunction :=
        { codeAsset := "lambda/pre-sign-up"
          handler := "pre-sign-up.handler"
          environment := [] }
      -- lines 88-92
      let verifyAuthChallengeResponse : LambdaFunction :=
        { codeAsset := "lambda/verify-auth-challenge-response"
          handler := "verify-auth-challenge-response.handler"
          environment := [] }
      -- lines 96-103: created only when hasuraClaims is truthy
      let hasuraClaimsCallback : Option LambdaFunction :=
        if p.hasuraClaims.val then
          some { codeAsset := "lambda/hasura-claims-callback/"
                 handler := "hasura-claims-callback.handler"
                 environment := [] }
        else none
      -- lines 112-130
      let lambdaTriggers : LambdaTriggers :=
        if p.hasuraClaims.val then
          { createAuthChallenge := createAuthChallenge
            defineAuthChallenge := defineAuthChallenge
            preSignUp := preSignUp
            verifyAuthChallengeResponse := verifyAuthChallengeResponse
            postAuthentication := postAuthentication
            preTokenGeneration := hasuraClaimsCallback }
        else
          { createAuthChallenge := createAuthChallenge
            defineAuthChallenge := defineAuthChallenge
            preSignUp := preSignUp
            verifyAuthChallengeResponse := verifyAuthChallengeResponse
            postAuthentication := postAuthentication
            preTokenGeneration := none }
      -- lines 133-156
      let userPool : UserPool :=
        { signInAliasPhone := true
          signInAliasEmail := true
          mfaOff := true
          selfSignUpEnabled := true
          signInCaseSensitive := false
          passwordMinLength := 8
          lambdaTriggers := lambdaTriggers }
      -- lines 159-164
      let userPoolClient : UserPoolClient :=
        { generateSecret := false, authFlowCustom := true }
      -- lines 173-188
      let policies : List IamPolicy :=
        [{ id := "CreateAuthChallengeRole"
           actions := ["ses:SendEmail", "mobiletargeting:SendMessages"]
           resources := ["*"] },
         { id := "SetUserAttributesPolicy"
           actions := ["cognito-idp:AdminUpdateUserAttributes"]
           resources := ["userPoolArn"] }]
      -- lines 191-232
      let basePermissions : List InvokePermission :=
        [{ id := "DefineAuthChallenge Invocation"
           principal := "cognito-idp.amazonaws.com"
           action := "lambda:InvokeFunction" },
         { id := "CreateAuthChallenge Invocation"
           principal := "cognito-idp.amazonaws.com"
           action := "lambda:InvokeFunction" },
         { id := "VerifyAuthChallengeResponse Invocation"
           principal := "cognito-idp.amazonaws.com"
           action := "lambda:InvokeFunction" },
         { id := "PreSignUp Invocation"
           principal := "cognito-idp.amazonaws.com"
           action := "lambda:InvokeFunction" },
         { id := "PostAuthentication Invocation"
           principal := "cognito-idp.amazonaws.com"
           action := "lambda:InvokeFunction" }]
      let permissions : List InvokePermission :=
        if p.hasuraClaims.val then
          basePermissions ++
            [{ id := "HasuraClaimsCallback Invocation"
               principal := "cognito-idp.amazonaws.com"
               action := "lambda:InvokeFunction" }]
        else basePermissions
      -- lines 235-246
      let outputs : List StackOutput :=
        [{ id := "UserPoolId", exportName := "UserPoolId" },
         { id := "UserPoolClientId", exportName := "UserPoolClientId" }]
      .ok
        { pinpointSMSChannel := pinpointSMSChannel
          defineAuthChallenge := some defineAuthChallenge
          createAuthChallenge := some createAuthChallenge
          postAuthenticationRole := true
          postAuthentication := some postAuthentication
          preSignUp := some preSignUp
          verifyAuthChallengeResponse := some verifyAuthChallengeResponse
          hasuraClaimsCallback := hasuraClaimsCallback
          userPool := some userPool
          userPoolClient := some userPoolClient
          policies := policies
          permissions := permissions
          outputs := outputs }

end BackendStack

/-! ## Challenge protocol handlers (modelled from the spec)

The lambda sources under `lambda/` are not part of `src/`; the definitions
below follow the specification text, section by section. -/

/-- One entry of a session's challenge history: the challenge presented and
whether the response was judged correct (spec §3, `ChallengeAttempt`). -/
structure ChallengeAttempt where
  challengeName : String
  wasCorrect : Bool
deriving DecidableEq, Repr

/-- The three decisions the define-challenge handler can emit (spec §4.1). -/
inductive ChallengeDecision where
  | issueChallenge
  | succeed
  | failAttempt
deriving DecidableEq, Repr

/-- Modelled from the spec: the `lambda/define-auth-challenge` handler, whose
source is not under `src/`.  Spec §4.1 policy: on an empty history, always
`ISSUE_CHALLENGE`; `SUCCEED` if the most recent attempt was correct; `FAIL`
once the number of attempts reaches the configured maximum without a correct
answer; otherwise `ISSUE_CHALLENGE` again. -/
def defineAuthChallengeHandler (maxAttempts : Nat)
    (history : List ChallengeAttempt) : ChallengeDecision :=
  match history.getLast? with
  | none => .issueChallenge
  | some mostRecent =>
    if mostRecent.wasCorrect then .succeed
    else if maxAttempts ≤ history.length then .failAttempt
    else .issueChallenge

/-- Length of the generated one-time code (spec §4.2: "fixed-length numeric
code"; the spec's end-to-end scenario, §8, uses the 6-digit code "482913"). -/
def secretLength : Nat := 6

/-- Modelled from the spec: secret generation inside the
`lambda/create-auth-challenge` handler (source not under `src/`).  Spec §4.2:
"generates a fresh one-time secret (fixed-length numeric code,
cryptographically unpredictable)".  The cryptographic random source is
modelled as an explicit `randomness` draw; each invocation consumes a fresh
draw, so the output is a function of the draw, not of the handler input. -/
def genOneTimeSecret (randomness : Nat) : String :=
  String.mk ((List.range secretLength).map
    (fun i => Char.ofNat (48 + randomness / 10 ^ (secretLength - 1 - i) % 10)))

/-- The two notification channels of spec §6. -/
inductive Channel where
  | email
  | sms
deriving DecidableEq, Repr

/-- Identity context given to the create-challenge handler (spec §4.2):
the available, verified contact methods. -/
structure CreateChallengeInput where
  verifiedEmail : Option String
  verifiedPhone : Option String
deriving DecidableEq, Repr

/-- Spec §4.2: "dispatches it through exactly one notification channel chosen
by available, verified contact method (prefer one channel deterministically,
e.g., email over SMS)". -/
def chosenChannel (input : CreateChallengeInput) : Channel :=
  if input.verifiedEmail.isSome then .email else .sms

/-- Spec §7, `DispatchError`: notification channel send failure. -/
inductive DispatchError where
  | sendFailed (channel : Channel)
deriving DecidableEq, Repr

/-- Successful output of the create-challenge handler: the secret stored in
session-private metadata (keyed for later comparison) and the single channel
used. -/
structure CreateChallengeOutput where
  privateChallengeParameters : List (String × String)
  channelUsed : Channel
deriving DecidableEq, Repr

/-- Modelled from the spec: the `lambda/create-auth-challenge` handler
(source not under `src/`).  Spec §4.2: generate a fresh one-time secret from
the random source, store it in session-private metadata, dispatch it through
exactly one channel chosen by `chosenChannel`; a dispatch failure propagates
as a hard failure of the attempt, with no fallback to the other channel and
no retry.  `sendOutcome` models the result of the single outbound send
attempted on each channel. -/
def createAuthChallengeHandler (input : CreateChallengeInput) (randomness : Nat)
    (sendOutcome : Channel → Bool) :
    Except DispatchError CreateChallengeOutput :=
  let secret := genOneTimeSecret randomness
  let channel := chosenChannel input
  if sendOutcome channel then
    .ok { privateChallengeParameters := [("answer", secret)]
          channelUsed := channel }
  else
    .error (.sendFailed channel)

/-- Modelled from the spec: the `lambda/verify-auth-challenge-response`
handler (source not under `src/`).  Spec §4.3: "input is the user-submitted
answer and the session-private expected secret.  Output: boolean correctness
flag"; true iff the submitted answer exactly equals the stored secret, false
otherwise, including when the answer is missing.  A missing answer is
`none`. -/
def verifyAuthChallengeHandler (submittedAnswer : Option String)
    (expectedSecret : String) : Bool :=
  submittedAnswer == some expectedSecret

/-- Durable identity record of the external directory (spec §3,
`UserIdentity`): contact attributes and verification flags. -/
structure UserIdentity where
  email : String
  phoneNumber : String
  emailVerified : Bool
  phoneVerified : Bool
deriving DecidableEq, Repr

/-- Modelled from the spec: the `lambda/post-authentication` handler (source
not under `src/`).  Spec §4.5: "updates a durable attribute on the
UserIdentity (e.g., sets a 'contact verified' flag) via an administrative
update call.  Must be idempotent." -/
def postAuthenticationHandler (user : UserIdentity) : UserIdentity :=
  { user with emailVerified := true }

/-- The resources provisioned by a `BackendStack` constructor call: the
payload of the normal return.  The constructor contains no `throw`, so the
error branch never occurs; it defaults to the empty resource set. -/
def provisionedResources (props : Option BackendStackProps) : StackResources :=
  (BackendStack.construct props).toOption.getD emptyStackResources

/-- Lookup of an environment variable of the stack's CreateAuthChallenge
lambda, when that lambda was created. -/
def createAuthChallengeEnvVar (props : Option BackendStackProps)
    (key : String) : Option String :=
  (provisionedResources props).createAuthChallenge.bind
    (fun f => f.environment.lookup key)

/-- The concrete props passed to the stack by `src/bin/backend.ts`
(lines 12-22). -/
def deployedProps : BackendStackProps :=
  { hasuraClaims := ⟨false, rfl⟩
    sourceEmail := "crudavid36@gmail.com"
    originationNumber := ""
    pinpointApplicationId := "3ccaf76f60d5438b8e98a1698b6c3d88" }

/-- A concrete props value whose required `sourceEmail` is empty. -/
def emptyEmailProps : BackendStackProps :=
  { hasuraClaims := ⟨false, rfl⟩
    sourceEmail := ""
    originationNumber := ""
    pinpointApplicationId := "3ccaf76f60d5438b8e98a1698b6c3d88" }

/-! ## Theorems -/

/-- C1: if the required sender-email configuration value is absent or empty,
the `BackendStack` constructor returns early and provisions nothing — no
lambda function, no user pool, no client, no IAM policy or permission, no
stack output — and no error is raised: the result is a normal return
(`Except.ok`) carrying the empty resource set. -/
theorem missing_sourceEmail_provisions_nothing
    (props : Option BackendStackProps)
    (h : props = none ∨ ∃ p, props = some p ∧ p.sourceEmail = "") :
    BackendStack.construct props = .ok emptyStackResources ∧
    (provisionedResources props).defineAuthChallenge = none ∧
    (provisionedResources props).createAuthChallenge = none ∧
    (provisionedResources props).postAuthentication = none ∧
    (provisionedResources props).preSignUp = none ∧
    (provisionedResources props).verifyAuthChallengeResponse = none ∧
    (provisionedResources props).hasuraClaimsCallback = none ∧
    (provisionedResources props).pinpointSMSChannel = none ∧
    (provisionedResources props).userPool = none ∧
    (provisionedResources props).userPoolClient = none ∧
    (provisionedResources props).policies = [] ∧
    (provisionedResources props).permissions = [] ∧
    (provisionedResources props).outputs = [] := by
  have hc : BackendStack.construct props = .ok emptyStackResources := by
    rcases h with rfl | ⟨p, rfl, hs⟩
    · rfl
    · simp [BackendStack.construct, hs]
  exact ⟨hc, by simp [provisionedResources, hc, emptyStackResources, Except.toOption]⟩

/-- Witness for C1 at a concrete props value with empty `sourceEmail`. -/
theorem missing_sourceEmail_provisions_nothing_witness :
    BackendStack.construct (some emptyEmailProps) = .ok emptyStackResources ∧
    (provisionedResources (some emptyEmailProps)).defineAuthChallenge = none ∧
    (provisionedResources (some emptyEmailProps)).createAuthChallenge = none ∧
    (provisionedResources (some emptyEmailProps)).postAuthentication = none ∧
    (provisionedResources (some emptyEmailProps)).preSignUp = none ∧
    (provisionedResources (some emptyEmailProps)).verifyAuthChallengeResponse = none ∧
    (provisionedResources (some emptyEmailProps)).hasuraClaimsCallback = none ∧
    (provisionedResources (some emptyEmailProps)).pinpointSMSChannel = none ∧
    (provisionedResources (some emptyEmailProps)).userPool = none ∧
    (provisionedResources (some emptyEmailProps)).userPoolClient = none ∧
    (provisionedResources (some emptyEmailProps)).policies = [] ∧
    (provisionedResources (some emptyEmailProps)).permissions = [] ∧
    (provisionedResources (some emptyEmailProps)).outputs = [] :=
  missing_sourceEmail_provisions_nothing (some emptyEmailProps)
    (Or.inr ⟨emptyEmailProps, rfl, rfl⟩)

/-- C2: on an empty challenge history the define-challenge handler returns
`ISSUE_CHALLENGE`, for every configured maximum. -/
theorem defineAuthChallenge_empty_history (maxAttempts : Nat) :
    defineAuthChallengeHandler maxAttempts [] = .issueChallenge := rfl

/-- C3: on a non-empty history whose most recent attempt is marked correct,
the define-challenge handler returns `SUCCEED`. -/
theorem defineAuthChallenge_recent_correct (maxAttempts : Nat)
    (history : List ChallengeAttempt) (mostRecent : ChallengeAttempt)
    (hlast : history.getLast? = some mostRecent)
    (hcorrect : mostRecent.wasCorrect = true) :
    defineAuthChallengeHandler maxAttempts history = .succeed := by
  unfold defineAuthChallengeHandler
  rw [hlast]
  simp [hcorrect]

/-- Witness for C3: a two-attempt history ending in a correct attempt. -/
theorem defineAuthChallenge_recent_correct_witness :
    defineAuthChallengeHandler 3
      [{ challengeName := "CUSTOM_CHALLENGE", wasCorrect := false },
       { challengeName := "CUSTOM_CHALLENGE", wasCorrect := true }] = .succeed :=
  defineAuthChallenge_recent_correct 3
    [{ challengeName := "CUSTOM_CHALLENGE", wasCorrect := false },
     { challengeName := "CUSTOM_CHALLENGE", wasCorrect := true }]
    { challengeName := "CUSTOM_CHALLENGE", wasCorrect := true }
    (by decide) rfl

/-- C4: on a history with no correct attempt, with a positive configured
maximum, the define-challenge handler returns `FAIL` when the history length
has reached the maximum and `ISSUE_CHALLENGE` when it is still below it. -/
theorem defineAuthChallenge_no_correct (maxAttempts : Nat)
    (history : List ChallengeAttempt)
    (hmax : 0 < maxAttempts)
    (hnone : ∀ a ∈ history, a.wasCorrect = false) :
    (maxAttempts ≤ history.length →
      defineAuthChallengeHandler maxAttempts history = .failAttempt) ∧
    (history.length < maxAttempts →
      defineAuthChallengeHandler maxAttempts history = .issueChallenge) := by
  cases hl : history.getLast? with
  | none =>
    have hnil : history = [] := List.getLast?_eq_none_iff.mp hl
    subst hnil
    constructor
    · intro hle
      simp only [List.length_nil, Nat.le_zero] at hle
      omega
    · intro _
      rfl
  | some a =>
    have hmem : a ∈ history := by
      obtain ⟨hne, heq⟩ :=
        List.mem_getLast?_eq_getLast (Option.mem_def.mpr hl)
      rw [heq]
      exact List.getLast_mem hne
    have hfa : a.wasCorrect = false := hnone a hmem
    unfold defineAuthChallengeHandler
    rw [hl]
    simp only [hfa, Bool.false_eq_true, if_false]
    constructor
    · intro hle
      rw [if_pos hle]
    · intro hlt
      rw [if_neg (by omega)]

/-- Witness for C4: three incorrect attempts with the configured maximum 3
yield `FAIL`. -/
theorem defineAuthChallenge_no_correct_witness :
    defineAuthChallengeHandler 3
      [{ challengeName := "CUSTOM_CHALLENGE", wasCorrect := false },
       { challengeName := "CUSTOM_CHALLENGE", wasCorrect := false },
       { challengeName := "CUSTOM_CHALLENGE", wasCorrect := false }] =
      .failAttempt :=
  (defineAuthChallenge_no_correct 3
    [{ challengeName := "CUSTOM_CHALLENGE", wasCorrect := false },
     { challengeName := "CUSTOM_CHALLENGE", wasCorrect := false },
     { challengeName := "CUSTOM_CHALLENGE", wasCorrect := false }]
    (by decide) (by decide)).1 (by decide)

/-- C5: the verify-challenge handler returns true iff the submitted answer
exactly equals the stored secret; in particular a missing answer is rejected
and, for any non-empty secret, so is an empty answer. -/
theorem verifyAuthChallenge_exact_match (submittedAnswer : Option String)
    (expectedSecret : String) :
    (verifyAuthChallengeHandler submittedAnswer expectedSecret = true ↔
      submittedAnswer = some expectedSecret) ∧
    verifyAuthChallengeHandler none expectedSecret = false ∧
    (expectedSecret ≠ "" →
      verifyAuthChallengeHandler (some "") expectedSecret = false) := by
  refine ⟨?_, ?_, ?_⟩
  · simp [verifyAuthChallengeHandler]
  · simp [verifyAuthChallengeHandler]
  · intro h
    simp [verifyAuthChallengeHandler]
    exact fun he => h he.symm

/-- Witness for C5: the empty answer is rejected against the spec's example
secret "482913". -/
theorem verifyAuthChallenge_exact_match_witness :
    verifyAuthChallengeHandler (some "") "482913" = false :=
  (verifyAuthChallenge_exact_match (some "") "482913").2.2 (by decide)

/-- Characters built from a decimal digit value are digits. -/
theorem charOfNat_isDigit (d : Nat) (hd : d < 10) :
    (Char.ofNat (48 + d)).isDigit = true := by
  interval_cases d <;> decide

/-- C6: every generated one-time secret is a fixed-length numeric string,
and two invocations of the create-challenge handler on the same input can
store different secrets — the secret is a function of the fresh random draw,
not of the handler input, so repeated invocations are independent. -/
theorem createAuthChallenge_fresh_numeric_secret :
    (∀ randomness, (genOneTimeSecret randomness).length = secretLength ∧
      (genOneTimeSecret randomness).toList.all Char.isDigit = true) ∧
    (∃ input sendOutcome r₁ r₂ out₁ out₂,
      createAuthChallengeHandler input r₁ sendOutcome = .ok out₁ ∧
      createAuthChallengeHandler input r₂ sendOutcome = .ok out₂ ∧
      out₁.privateChallengeParameters ≠ out₂.privateChallengeParameters) := by
  constructor
  · intro r
    constructor
    · simp [genOneTimeSecret, String.length]
    · have hdata : (genOneTimeSecret r).toList =
          (List.range secretLength).map
            (fun i => Char.ofNat (48 + r / 10 ^ (secretLength - 1 - i) % 10)) :=
        rfl
      rw [hdata, List.all_eq_true]
      intro c hc
      obtain ⟨i, _, rfl⟩ := List.mem_map.mp hc
      exact charOfNat_isDigit _ (Nat.mod_lt _ (by norm_num))
  · refine ⟨{ verifiedEmail := some "user@example.com", verifiedPhone := none },
      fun _ => true, 0, 1,
      { privateChallengeParameters := [("answer", genOneTimeSecret 0)]
        channelUsed := .email },
      { privateChallengeParameters := [("answer", genOneTimeSecret 1)]
        channelUsed := .email },
      rfl, rfl, by decide⟩

/-- C7: the post-authentication hook is idempotent — applying it twice to the
same user yields the same durable attribute state as applying it once. -/
theorem postAuthentication_idempotent (user : UserIdentity) :
    postAuthenticationHandler (postAuthenticationHandler user) =
      postAuthenticationHandler user := rfl

/-- C8: a failed send on the chosen notification channel makes the
create-challenge handler fail hard with a `DispatchError`, and the outcome is
determined by the single send on the chosen channel alone — the handler never
falls back to the other channel, and every send function that fails on the
chosen channel produces the same hard failure (no retry). -/
theorem dispatch_failure_hard_no_fallback
    (input : CreateChallengeInput) (randomness : Nat)
    (sendOutcome : Channel → Bool)
    (hfail : sendOutcome (chosenChannel input) = false) :
    createAuthChallengeHandler input randomness sendOutcome =
      .error (.sendFailed (chosenChannel input)) ∧
    ∀ sendOutcome₂ : Channel → Bool,
      sendOutcome₂ (chosenChannel input) = false →
      createAuthChallengeHandler input randomness sendOutcome₂ =
        createAuthChallengeHandler input randomness sendOutcome := by
  have h1 : createAuthChallengeHandler input randomness sendOutcome =
      .error (.sendFailed (chosenChannel input)) := by
    simp [createAuthChallengeHandler, hfail]
  refine ⟨h1, fun s2 h2 => ?_⟩
  rw [h1]
  simp [createAuthChallengeHandler, h2]

/-- Witness for C8: an SMS-only user whose send fails on every channel gets a
hard `DispatchError` for the SMS channel. -/
theorem dispatch_failure_hard_no_fallback_witness :
    createAuthChallengeHandler
      { verifiedEmail := none, verifiedPhone := some "+15550100" }
      482913 (fun _ => false) =
      .error (.sendFailed (chosenChannel
        { verifiedEmail := none, verifiedPhone := some "+15550100" })) :=
  (dispatch_failure_hard_no_fallback
    { verifiedEmail := none, verifiedPhone := some "+15550100" }
    482913 (fun _ => false) rfl).1

/-- C9: for every well-typed props value the `hasuraClaims` field is the
literal `false`, so the hasuraClaims branch is unreachable: no
HasuraClaimsCallback lambda and no `preTokenGeneration` trigger are created,
and whenever `sourceEmail` is present the user pool is wired with exactly the
five triggers createAuthChallenge, defineAuthChallenge, preSignUp,
verifyAuthChallengeResponse and postAuthentication — each the corresponding
lambda the stack created. -/
theorem hasuraClaims_branch_unreachable (p : BackendStackProps)
    (h : p.sourceEmail ≠ "") :
    p.hasuraClaims.val = false ∧
    BackendStack.construct (some p) = .ok (provisionedResources (some p)) ∧
    (provisionedResources (some p)).hasuraClaimsCallback = none ∧
    (provisionedResources (some p)).userPool.map
        (fun pool => pool.lambdaTriggers.preTokenGeneration) = some none ∧
    (provisionedResources (some p)).userPool.map
        (fun pool => some pool.lambdaTriggers.createAuthChallenge) =
      some (provisionedResources (some p)).createAuthChallenge ∧
    (provisionedResources (some p)).userPool.map
        (fun pool => some pool.lambdaTriggers.defineAuthChallenge) =
      some (provisionedResources (some p)).defineAuthChallenge ∧
    (provisionedResources (some p)).userPool.map
        (fun pool => some pool.lambdaTriggers.preSignUp) =
      some (provisionedResources (some p)).preSignUp ∧
    (provisionedResources (some p)).userPool.map
        (fun pool => some pool.lambdaTriggers.verifyAuthChallengeResponse) =
      some (provisionedResources (some p)).verifyAuthChallengeResponse ∧
    (provisionedResources (some p)).userPool.map
        (fun pool => some pool.lambdaTriggers.postAuthentication) =
      some (provisionedResources (some p)).postAuthentication := by
  have hb : p.hasuraClaims.val = false := p.hasuraClaims.property
  refine ⟨hb, ?_⟩
  simp [provisionedResources, BackendStack.construct, h, hb, Except.toOption]

/-- Witness for C9 at the concrete props of `src/bin/backend.ts`. -/
theorem hasuraClaims_branch_unreachable_witness :
    deployedProps.hasuraClaims.val = false ∧
    BackendStack.construct (some deployedProps) =
      .ok (provisionedResources (some deployedProps)) ∧
    (provisionedResources (some deployedProps)).hasuraClaimsCallback = none ∧
    (provisionedResources (some deployedProps)).userPool.map
        (fun pool => pool.lambdaTriggers.preTokenGeneration) = some none ∧
    (provisionedResources (some deployedProps)).userPool.map
        (fun pool => some pool.lambdaTriggers.createAuthChallenge) =
      some (provisionedResources (some deployedProps)).createAuthChallenge ∧
    (provisionedResources (some deployedProps)).userPool.map
        (fun pool => some pool.lambdaTriggers.defineAuthChallenge) =
      some (provisionedResources (some deployedProps)).defineAuthChallenge ∧
    (provisionedResources (some deployedProps)).userPool.map
        (fun pool => some pool.lambdaTriggers.preSignUp) =
      some (provisionedResources (some deployedProps)).preSignUp ∧
    (provisionedResources (some deployedProps)).userPool.map
        (fun pool => some pool.lambdaTriggers.verifyAuthChallengeResponse) =
      some (provisionedResources (some deployedProps)).verifyAuthChallengeResponse ∧
    (provisionedResources (some deployedProps)).userPool.map
        (fun pool => some pool.lambdaTriggers.postAuthentication) =
      some (provisionedResources (some deployedProps)).postAuthentication :=
  hasuraClaims_branch_unreachable deployedProps (by decide)

/-- C10: when the stack provisions (the required `sourceEmail` is present),
the Pinpoint SMS channel resource is created exactly when
`pinpointApplicationId` is empty; in that case it carries the placeholder
literal "applicationId" and the CreateAuthChallenge lambda's
PINPOINTAPPLICATIONID environment variable is that placeholder; otherwise no
channel is created and the variable equals `props.pinpointApplicationId`. -/
theorem pinpointSMSChannel_exactly_when_missing (p : BackendStackProps)
    (h : p.sourceEmail ≠ "") :
    ((provisionedResources (some p)).pinpointSMSChannel.isSome ↔
      p.pinpointApplicationId = "") ∧
    (p.pinpointApplicationId = "" →
      (provisionedResources (some p)).pinpointSMSChannel =
        some { applicationId := "applicationId" } ∧
      createAuthChallengeEnvVar (some p) "PINPOINTAPPLICATIONID" =
        some "applicationId") ∧
    (p.pinpointApplicationId ≠ "" →
      (provisionedResources (some p)).pinpointSMSChannel = none ∧
      createAuthChallengeEnvVar (some p) "PINPOINTAPPLICATIONID" =
        some p.pinpointApplicationId) := by
  by_cases hpa : p.pinpointApplicationId = "" <;>
    simp [provisionedResources, createAuthChallengeEnvVar,
      BackendStack.construct, h, hpa, Except.toOption, List.lookup]

/-- Witness for C10 at the concrete props of `src/bin/backend.ts`, whose
`pinpointApplicationId` is non-empty. -/
theorem pinpointSMSChannel_exactly_when_missing_witness :
    (provisionedResources (some deployedProps)).pinpointSMSChannel = none ∧
    createAuthChallengeEnvVar (some deployedProps) "PINPOINTAPPLICATIONID" =
      some deployedProps.pinpointApplicationId :=
  (pinpointSMSChannel_exactly_when_missing deployedProps (by decide)).2.2
    (by decide)
